import Mathlib

/-!
Shallow embedding of the gift-card issuance pipeline of the
`nsofm-physical-gift-cards` Shopify app.

Monetary amounts (decimal strings in the webhook payload, `parseFloat` /
`toFixed(2)` in the source) are modelled as rationals: a decimal string is
represented by the rational number it denotes, and `toFixed(2)` by rounding
to an integer number of cents (round half away from zero on the non-negative
amounts that occur here, matching JavaScript's `toFixed`).

Two historical variants of the pipeline are embedded:
* `DbVariant` — `src/app/services/giftcard.server.ts`, which persists one
  database row per created gift card and uses those rows for idempotency;
* `MetaVariant` — the metafield-based variant (`src/unnamed/part_002`),
  which stores results in an order metafield, subtracts a configured
  printed overhead from the unit price, and appends to the order note.

External effects (the gift-card creation API, database writes, the
metafield / order-note write) are modelled by an explicit environment: the
outcome of the n-th creation call, whether the n-th database write throws,
and whether the persistence write throws.
-/

namespace GiftCardApp

/-- Money amounts: the rational denoted by the source's decimal strings. -/
abbrev Money := ℚ

/-- Customer object of the order-paid webhook payload. -/
structure Customer where
  gid : String
  email : Option String
  firstName : Option String
  lastName : Option String
deriving DecidableEq

/-- A line item of the order-paid webhook payload. -/
structure LineItem where
  id : Nat
  productId : Nat
  variantId : Nat
  quantity : Nat
  price : Money
  title : String
  gid : String
deriving DecidableEq

/-- The order-paid webhook payload. -/
structure OrderWebhookPayload where
  id : Nat
  gid : String
  name : String
  email : Option String
  note : Option String
  customer : Option Customer
  lineItems : List LineItem
deriving DecidableEq

/-- Outcome of one external gift-card creation call. -/
inductive CreateOutcome where
  | thrown
  | userErrors
  | noData
  | success (id code maskedCode : String)
deriving DecidableEq

/-- JavaScript string truthiness: `s || t` keeps `s` only when it is a
non-empty string. -/
def jsTruthy (o : Option String) : Option String :=
  o.bind (fun s => if s = "" then none else some s)

/-- `gid://shopify/ProductVariant/` followed by the numeric variant id, as
built by the line-item matcher. -/
def variantGid (variantId : Nat) : String :=
  "gid://shopify/ProductVariant/" ++ toString variantId

/-- Customer display name: trimmed first and last name, or `Guest`. -/
def customerNameOf (payload : OrderWebhookPayload) : String :=
  match payload.customer with
  | some c => ((c.firstName.getD "") ++ " " ++ (c.lastName.getD "")).trim
  | none => "Guest"

/-- Customer email with the source's fallback chain
`payload.customer?.email || payload.email || "No email"`. -/
def customerEmailOf (payload : OrderWebhookPayload) : String :=
  ((jsTruthy (payload.customer.bind (·.email))).orElse
    (fun _ => jsTruthy payload.email)).getD "No email"

/-- The customer id attached to a creation call input, from the spread
`...(sendEmail && customerId && \x7b customerId \x7d)` (JS truthiness on
the id string). -/
def attachedCustomerId (sendEmail : Bool) (customerId : Option String) :
    Option String :=
  if sendEmail then jsTruthy customerId else none

/-- The `/.\x7b1,4\x7d/g` chunking of `formatGiftCardCode`: successive
groups of at most four characters. -/
def chunk4 (l : List Char) : List (List Char) :=
  if h : l = [] then [] else l.take 4 :: chunk4 (l.drop 4)
termination_by l.length
decreasing_by
  have h' : 0 < l.length := List.length_pos.mpr h
  simp only [List.length_drop]
  omega

/-- `formatGiftCardCode`: groups of four characters joined by spaces,
upper-cased; used for display. -/
def formatGiftCardCode (code : String) : String :=
  (String.intercalate " " ((chunk4 code.data).map String.mk)).toUpper

namespace DbVariant

/-- A `GiftCardProduct` row: a configured trigger variant for a shop. -/
structure GiftCardProductRow where
  shop : String
  variantId : String
deriving DecidableEq

/-- An `AppSettings` row. -/
structure AppSettingsRow where
  shop : String
  sendEmailNotification : Bool
deriving DecidableEq

/-- A `GiftCardRecord` row, as written by `db.giftCardRecord.create`. -/
structure GiftCardRecordRow where
  shop : String
  orderId : String
  orderName : String
  lineItemId : String
  giftCardId : String
  giftCardCode : String
  value : Money
  customerId : Option String
  customerName : Option String
  customerEmail : Option String
deriving DecidableEq

/-- The relational store visible to the pipeline. -/
structure Db where
  giftCardProducts : List GiftCardProductRow
  appSettings : List AppSettingsRow
  giftCardRecords : List GiftCardRecordRow
deriving DecidableEq

/-- One external gift-card creation call as issued by `createGiftCard`:
its initial value, note text, and the customer association attached. -/
structure CreateCall where
  value : Money
  note : String
  customerId : Option String
deriving DecidableEq

/-- An entry of the in-memory `createdGiftCards` array. -/
structure CreatedGiftCard where
  lineItemId : String
  giftCardId : String
  code : String
  maskedCode : String
  value : Money
deriving DecidableEq

/-- One entry of the JSON list written by `setOrderGiftCardMetafield`. -/
structure MetafieldEntry where
  code : String
  value : Money
  maskedCode : String
  giftCardId : String
deriving DecidableEq

/-- External-effect environment: outcome of the n-th creation call,
whether the database write following the n-th call succeeds, and whether
the metafield write succeeds (false models a thrown error). -/
structure Env where
  create : Nat → CreateOutcome
  dbWriteOk : Nat → Bool
  metafieldOk : Bool

/-- `findFirst` on `GiftCardRecord` by shop and order id (idempotency). -/
def alreadyProcessed (db : Db) (shop orderId : String) : Bool :=
  db.giftCardRecords.any (fun r => r.shop == shop && r.orderId == orderId)

/-- The configured trigger-variant ids of a shop. -/
def shopVariantIds (db : Db) (shop : String) : List String :=
  (db.giftCardProducts.filter (fun p => p.shop == shop)).map (·.variantId)

/-- Line items whose variant gid is in the shop's trigger set. -/
def matchedLineItems (db : Db) (shop : String)
    (payload : OrderWebhookPayload) : List LineItem :=
  payload.lineItems.filter
    (fun item => (shopVariantIds db shop).contains (variantGid item.variantId))

/-- `settings?.sendEmailNotification ?? true`. -/
def sendEmailSetting (db : Db) (shop : String) : Bool :=
  match db.appSettings.find? (fun s => s.shop == shop) with
  | some s => s.sendEmailNotification
  | none => true

/-- The note string built for each unit's creation call. -/
def unitNote (payload : OrderWebhookPayload) (li : LineItem) : String :=
  "Order: " ++ payload.name ++ "\nProduct: " ++ li.title ++
    "\nCustomer: " ++ customerNameOf payload ++
    "\nEmail: " ++ customerEmailOf payload

/-- The creation call issued for one unit of a line item. -/
def unitCall (payload : OrderWebhookPayload) (sendEmail : Bool)
    (li : LineItem) : CreateCall :=
  { value := li.price
    note := unitNote payload li
    customerId :=
      attachedCustomerId sendEmail (payload.customer.map (·.gid)) }

/-- The `createdGiftCards` entry pushed for a successful unit. -/
def mkCard (li : LineItem) (gcId code masked : String) : CreatedGiftCard :=
  { lineItemId := li.gid, giftCardId := gcId, code := code
    maskedCode := masked, value := li.price }

/-- The database row written for a successful unit. -/
def mkRecord (shop : String) (payload : OrderWebhookPayload)
    (li : LineItem) (gcId code : String) : GiftCardRecordRow :=
  { shop := shop
    orderId := payload.gid
    orderName := payload.name
    lineItemId := li.gid
    giftCardId := gcId
    giftCardCode := code
    value := li.price
    customerId := payload.customer.map (·.gid)
    customerName :=
      if customerNameOf payload ≠ "Guest" then some (customerNameOf payload)
      else none
    customerEmail :=
      if customerEmailOf payload ≠ "No email"
      then some (customerEmailOf payload) else none }

/-- In-memory state of the per-unit creation loop: number of creation
calls made so far, the calls, the pushed cards, the rows written. -/
structure LoopState where
  n : Nat
  calls : List CreateCall
  created : List CreatedGiftCard
  newRecords : List GiftCardRecordRow
deriving DecidableEq

/-- One iteration of the inner loop: make the creation call; on success
push the card and attempt the database write (a failed write is caught
after the push); on any failure continue. -/
def processUnit (env : Env) (shop : String) (payload : OrderWebhookPayload)
    (sendEmail : Bool) (li : LineItem) (s : LoopState) : LoopState :=
  let call := unitCall payload sendEmail li
  match env.create s.n with
  | .success gcId code masked =>
      { n := s.n + 1
        calls := s.calls ++ [call]
        created := s.created ++ [mkCard li gcId code masked]
        newRecords := s.newRecords ++
          (if env.dbWriteOk s.n then [mkRecord shop payload li gcId code]
           else []) }
  | _ =>
      { n := s.n + 1
        calls := s.calls ++ [call]
        created := s.created
        newRecords := s.newRecords }

/-- The nested `for` loops: over matched line items, then over quantity. -/
def runLoop (env : Env) (shop : String) (payload : OrderWebhookPayload)
    (sendEmail : Bool) (items : List LineItem) (s : LoopState) : LoopState :=
  items.foldl
    (fun s li =>
      (List.range li.quantity).foldl
        (fun s _ => processUnit env shop payload sendEmail li s) s) s

/-- The metafield entry derived from a created card. -/
def toMetafieldEntry (gc : CreatedGiftCard) : MetafieldEntry :=
  { code := gc.code, value := gc.value, maskedCode := gc.maskedCode
    giftCardId := gc.giftCardId }

/-- Observable result of one invocation of `processGiftCardOrder`: the
creation calls made, the cards pushed, the final database, and the
metafield written on the order (none when not written). -/
structure RunResult where
  calls : List CreateCall
  created : List CreatedGiftCard
  db : Db
  metafield : Option (List MetafieldEntry)
deriving DecidableEq

/-- The result of a short-circuited invocation: no external calls, no
writes. -/
def skipResult (db : Db) : RunResult :=
  { calls := [], created := [], db := db, metafield := none }

/-- `processGiftCardOrder` of `giftcard.server.ts`: idempotency check on
existing records, trigger-variant lookup, line-item matching, per-unit
creation loop with failure isolation, then the metafield write (whose
failure is caught). -/
def processGiftCardOrder (env : Env) (db : Db) (shop : String)
    (payload : OrderWebhookPayload) : RunResult :=
  if alreadyProcessed db shop payload.gid then skipResult db
  else if (db.giftCardProducts.filter (fun p => p.shop == shop)).isEmpty then
    skipResult db
  else if (matchedLineItems db shop payload).isEmpty then skipResult db
  else
    let sendEmail := sendEmailSetting db shop
    let st := runLoop env shop payload sendEmail
      (matchedLineItems db shop payload) ⟨0, [], [], []⟩
    { calls := st.calls
      created := st.created
      db := { db with giftCardRecords := db.giftCardRecords ++ st.newRecords }
      metafield :=
        if st.created.isEmpty then none
        else if env.metafieldOk then some (st.created.map toMetafieldEntry)
        else none }

/-- The flattened unit list: one entry per purchased unit of a matched
line item, in line-item order then quantity order. -/
def unitList (db : Db) (shop : String) (payload : OrderWebhookPayload) :
    List LineItem :=
  (matchedLineItems db shop payload).flatMap
    (fun li => List.replicate li.quantity li)

/-- The card pushed for the n-th unit, when its creation call succeeds. -/
def unitCreated (env : Env) : Nat × LineItem → Option CreatedGiftCard :=
  fun p =>
    match env.create p.1 with
    | .success gcId code masked => some (mkCard p.2 gcId code masked)
    | _ => none

/-- The database row written for the n-th unit, when the creation call
succeeds and the write does not throw. -/
def unitRecord (env : Env) (shop : String) (payload : OrderWebhookPayload) :
    Nat × LineItem → Option GiftCardRecordRow :=
  fun p =>
    match env.create p.1 with
    | .success gcId code _ =>
        if env.dbWriteOk p.1 then some (mkRecord shop payload p.2 gcId code)
        else none
    | _ => none

end DbVariant

namespace MetaVariant

/-- Shop settings stored in the shop's settings metafield. -/
structure ShopSettings where
  variantIds : List String
  sendEmailNotification : Bool
  printedOverhead : Money
deriving DecidableEq

/-- External-effect environment of the metafield variant: the shop
currency response, the order's existing `created_codes` metafield value,
the parsed settings metafield (none models absent or invalid JSON), the
outcome of the n-th creation call, whether the note update following the
n-th call throws, and whether the final order update throws. -/
structure Env where
  shopCurrency : Option String
  orderMetafield : Option String
  settings : Option ShopSettings
  create : Nat → CreateOutcome
  noteUpdateOk : Nat → Bool
  orderUpdateOk : Bool

/-- `shopData.data?.shop?.currencyCode || "USD"`. -/
def currencyCodeOf (env : Env) : String := (jsTruthy env.shopCurrency).getD "USD"

/-- Defaults returned by `getShopSettings` when the settings metafield is
absent or holds invalid JSON. -/
def defaultSettings : ShopSettings :=
  { variantIds := [], sendEmailNotification := true, printedOverhead := 0 }

/-- `getShopSettings`. -/
def settingsOf (env : Env) : ShopSettings := env.settings.getD defaultSettings

/-- `toFixed(2)` rounding on the non-negative amounts produced by the
value computation: round half away from zero to a whole number of cents
(for `q ≥ 0` this is `⌊100q + 1/2⌋ / 100`). -/
def round2 (q : Money) : Money := ((⌊q * 100 + 1 / 2⌋ : ℤ) : ℚ) / 100

/-- The per-unit value `Math.max(0, lineItemPrice - overhead).toFixed(2)`
with `overhead = settings.printedOverhead || 0` (and `x || 0 = x` on
numeric overheads). -/
def giftCardValue (price overhead : Money) : Money :=
  round2 (max 0 (price - overhead))

/-- Whole cents of an amount, for rendering a `toFixed(2)` string. -/
def cents (q : Money) : ℤ := round (q * 100)

/-- Decimal rendering of a non-negative amount as produced by
`toFixed(2)`. -/
def fixed2Str (q : Money) : String :=
  toString (cents q / 100) ++ "." ++
    (if (cents q % 100).toNat < 10 then "0" ++ toString (cents q % 100).toNat
     else toString (cents q % 100).toNat)

/-- Line items whose variant gid is in the settings' variant id set. -/
def matchedLineItems (env : Env) (payload : OrderWebhookPayload) :
    List LineItem :=
  payload.lineItems.filter
    (fun item =>
      (settingsOf env).variantIds.contains (variantGid item.variantId))

/-- One creation call: initial value, initial note, customer association. -/
structure CreateCall where
  value : Money
  note : String
  customerId : Option String
deriving DecidableEq

/-- An entry of the in-memory `createdGiftCards` array. -/
structure CreatedGiftCard where
  lineItemId : String
  giftCardId : String
  code : String
  maskedCode : String
  value : Money
  productTitle : String
deriving DecidableEq

/-- One entry of the `created_codes` metafield JSON list. -/
structure MetafieldEntry where
  code : String
  value : Money
  maskedCode : String
  giftCardId : String
  productTitle : String
deriving DecidableEq

/-- The note text sent with the creation call. -/
def initialNoteStr (env : Env) (payload : OrderWebhookPayload)
    (li : LineItem) (value : Money) : String :=
  "Order: " ++ payload.name ++ "\nProduct: " ++ li.title ++
    "\nCustomer: " ++ customerNameOf payload ++
    "\nEmail: " ++ customerEmailOf payload ++
    "\nValue: " ++ fixed2Str value ++ " " ++ currencyCodeOf env

/-- The note written back onto the gift card after creation: the initial
note plus the display-formatted full code. -/
def fullNoteStr (env : Env) (payload : OrderWebhookPayload) (li : LineItem)
    (value : Money) (code : String) : String :=
  initialNoteStr env payload li value ++ "\n\nFull Code: " ++
    formatGiftCardCode code

/-- The creation call issued for one unit. -/
def unitCall (env : Env) (payload : OrderWebhookPayload) (li : LineItem)
    (value : Money) : CreateCall :=
  { value := value
    note := initialNoteStr env payload li value
    customerId := attachedCustomerId (settingsOf env).sendEmailNotification
      (payload.customer.map (·.gid)) }

/-- The `createdGiftCards` entry pushed for a successful unit. -/
def mkCard (li : LineItem) (value : Money) (gcId code masked : String) :
    CreatedGiftCard :=
  { lineItemId := li.gid, giftCardId := gcId, code := code
    maskedCode := masked, value := value, productTitle := li.title }

/-- In-memory state of the per-unit loop. -/
structure LoopState where
  n : Nat
  calls : List CreateCall
  notes : List (String × String)
  created : List CreatedGiftCard
deriving DecidableEq

/-- One unit: make the creation call; on success, write the full-code note
back onto the gift card and push the card (a thrown note update is caught
by the per-unit catch, so the card is not pushed); on failure continue. -/
def processUnit (env : Env) (payload : OrderWebhookPayload) (li : LineItem)
    (value : Money) (s : LoopState) : LoopState :=
  let call := unitCall env payload li value
  match env.create s.n with
  | .success gcId code masked =>
      if env.noteUpdateOk s.n then
        { n := s.n + 1
          calls := s.calls ++ [call]
          notes := s.notes ++ [(gcId, fullNoteStr env payload li value code)]
          created := s.created ++ [mkCard li value gcId code masked] }
      else
        { n := s.n + 1, calls := s.calls ++ [call], notes := s.notes
          created := s.created }
  | _ =>
      { n := s.n + 1, calls := s.calls ++ [call], notes := s.notes
        created := s.created }

/-- The nested loops, the per-unit value computed once per line item. -/
def runLoop (env : Env) (payload : OrderWebhookPayload)
    (items : List LineItem) (s : LoopState) : LoopState :=
  items.foldl
    (fun s li =>
      let value := giftCardValue li.price (settingsOf env).printedOverhead
      (List.range li.quantity).foldl
        (fun s _ => processUnit env payload li value s) s) s

/-- The metafield entry derived from a created card. -/
def toMetafieldEntry (gc : CreatedGiftCard) : MetafieldEntry :=
  { code := gc.code, value := gc.value, maskedCode := gc.maskedCode
    giftCardId := gc.giftCardId, productTitle := gc.productTitle }

/-- One line of the order-note block, with the display-formatted code. -/
def orderNoteLine (env : Env) (p : Nat × CreatedGiftCard) : String :=
  "Gift Card #" ++ toString (p.1 + 1) ++ ": " ++ formatGiftCardCode p.2.code
    ++ "\nProduct: " ++ p.2.productTitle
    ++ "\nValue: " ++ fixed2Str p.2.value ++ " " ++ currencyCodeOf env

/-- The new order note: the existing note plus the gift-card block. -/
def orderNoteText (env : Env) (existing : Option String)
    (gcs : List CreatedGiftCard) : String :=
  (jsTruthy existing).getD "" ++ "\n\n--- Physical Gift Cards ---\n" ++
    String.intercalate "\n\n" ((List.enumFrom 0 gcs).map (orderNoteLine env))

/-- Observable result of one invocation: the creation calls, the notes
written onto gift cards, the cards pushed, the metafield written and the
order note written (none when not written). -/
structure RunResult where
  calls : List CreateCall
  notes : List (String × String)
  created : List CreatedGiftCard
  metafield : Option (List MetafieldEntry)
  orderNote : Option String
deriving DecidableEq

/-- The result of a short-circuited invocation. -/
def skipResult : RunResult :=
  { calls := [], notes := [], created := [], metafield := none
    orderNote := none }

/-- `processGiftCardOrder` of the metafield variant: metafield idempotency
check, settings lookup, matching, per-unit loop, then one order update
writing both the metafield and the note (its thrown failure is caught). -/
def processGiftCardOrder (env : Env) (payload : OrderWebhookPayload) :
    RunResult :=
  if (jsTruthy env.orderMetafield).isSome then skipResult
  else if (settingsOf env).variantIds.isEmpty then skipResult
  else if (matchedLineItems env payload).isEmpty then skipResult
  else
    let st := runLoop env payload (matchedLineItems env payload) ⟨0, [], [], []⟩
    { calls := st.calls
      notes := st.notes
      created := st.created
      metafield :=
        if st.created.isEmpty then none
        else if env.orderUpdateOk then some (st.created.map toMetafieldEntry)
        else none
      orderNote :=
        if st.created.isEmpty then none
        else if env.orderUpdateOk then
          some (orderNoteText env payload.note st.created)
        else none }

/-- The flattened unit list of matched line items. -/
def unitList (env : Env) (payload : OrderWebhookPayload) : List LineItem :=
  (matchedLineItems env payload).flatMap
    (fun li => List.replicate li.quantity li)

/-- The per-unit value of a line item under the environment's settings. -/
def unitValue (env : Env) (li : LineItem) : Money :=
  giftCardValue li.price (settingsOf env).printedOverhead

/-- The card pushed for the n-th unit, when creation and note update
succeed. -/
def unitCreated (env : Env) : Nat × LineItem → Option CreatedGiftCard :=
  fun p =>
    match env.create p.1 with
    | .success gcId code masked =>
        if env.noteUpdateOk p.1 then
          some (mkCard p.2 (unitValue env p.2) gcId code masked)
        else none
    | _ => none

/-- The gift-card note written for the n-th unit. -/
def unitNoteWrite (env : Env) (payload : OrderWebhookPayload) :
    Nat × LineItem → Option (String × String) :=
  fun p =>
    match env.create p.1 with
    | .success gcId code _ =>
        if env.noteUpdateOk p.1 then
          some (gcId, fullNoteStr env payload p.2 (unitValue env p.2) code)
        else none
    | _ => none

end MetaVariant

namespace Webhook

/-- The webhook acknowledgment: `new Response()` (an empty success). -/
inductive AckResponse where
  | success
deriving DecidableEq

/-- The `action` of `webhooks.orders.paid.tsx`. `authenticate.webhook`
runs before the try/catch, so a thrown authentication error propagates; a
falsy shop short-circuits to success; any error thrown by
`processGiftCardOrder` is caught and success is still returned. -/
def action (auth : Except String (String × OrderWebhookPayload))
    (process : String → OrderWebhookPayload → Except String Unit) :
    Except String AckResponse :=
  match auth with
  | .error e => .error e
  | .ok (shop, payload) =>
      if shop = "" then .ok .success
      else
        match process shop payload with
        | .ok _ => .ok .success
        | .error _ => .ok .success

end Webhook

namespace Sample

/-- A line item of a sample order. -/
def item (variantId qty : Nat) (price : Money) : LineItem :=
  { id := variantId, productId := variantId, variantId := variantId
    quantity := qty, price := price, title := "Physical Gift Card"
    gid := "gid://shopify/LineItem/" ++ toString variantId }

/-- A sample guest order. -/
def payload (items : List LineItem) : OrderWebhookPayload :=
  { id := 10, gid := "gid://shopify/Order/10", name := "#1001"
    email := none, note := none, customer := none, lineItems := items }

/-- A database with variant 1 configured as a trigger for shop1. -/
def db : DbVariant.Db :=
  { giftCardProducts := [{ shop := "shop1", variantId := variantGid 1 }]
    appSettings := [], giftCardRecords := [] }

/-- Creation always succeeds; all writes succeed. -/
def okEnv : DbVariant.Env :=
  { create := fun n =>
      .success (toString n) ("code" ++ toString n) ("mask" ++ toString n)
    dbWriteOk := fun _ => true, metafieldOk := true }

/-- Creation always fails with userErrors. -/
def userErrEnv : DbVariant.Env :=
  { create := fun _ => .userErrors, dbWriteOk := fun _ => true
    metafieldOk := true }

/-- The second creation call (index 1) throws; the rest succeed. -/
def failSecondEnv : DbVariant.Env :=
  { create := fun n =>
      if n = 1 then .thrown
      else .success (toString n) ("code" ++ toString n) ("mask" ++ toString n)
    dbWriteOk := fun _ => true, metafieldOk := true }

/-- Creation succeeds but every database write throws. -/
def dbFailEnv : DbVariant.Env :=
  { create := fun n =>
      .success (toString n) ("code" ++ toString n) ("mask" ++ toString n)
    dbWriteOk := fun _ => false, metafieldOk := true }

/-- A metafield-variant environment: variant 1 triggers, overhead 3,
creation and all writes succeed. -/
def metaEnv : MetaVariant.Env :=
  { shopCurrency := some "GBP", orderMetafield := none
    settings := some { variantIds := [variantGid 1]
                       sendEmailNotification := true, printedOverhead := 3 }
    create := fun n =>
      .success (toString n) ("code" ++ toString n) ("mask" ++ toString n)
    noteUpdateOk := fun _ => true, orderUpdateOk := true }

/-- The card created for the single unit of the sample metafield run. -/
def metaCard : MetaVariant.CreatedGiftCard :=
  MetaVariant.mkCard (item 1 1 25)
    (MetaVariant.unitValue metaEnv (item 1 1 25)) "0" "code0" "mask0"

end Sample

lemma foldl_range_eq_replicate {σ : Type} (g : LineItem → σ → σ)
    (li : LineItem) :
    ∀ (q : Nat) (s : σ),
    (List.range q).foldl (fun s _ => g li s) s
      = (List.replicate q li).foldl (fun s x => g x s) s := by
  intro q
  induction q with
  | zero => intro s; rfl
  | succ q ih =>
      intro s
      rw [List.range_succ, List.replicate_succ', List.foldl_append,
        List.foldl_append, ih]
      rfl

lemma foldl_nested_eq_flat {σ : Type} (g : LineItem → σ → σ) :
    ∀ (items : List LineItem) (s : σ),
    items.foldl
        (fun s li => (List.range li.quantity).foldl (fun s _ => g li s) s) s
      = (items.flatMap (fun li => List.replicate li.quantity li)).foldl
          (fun s x => g x s) s := by
  intro items
  induction items with
  | nil => intro s; rfl
  | cons a l ih =>
      intro s
      rw [List.foldl_cons, List.flatMap_cons, List.foldl_append,
        ← ih, foldl_range_eq_replicate]

namespace DbVariant

lemma runLoop_eq_flat (env : Env) (shop : String)
    (payload : OrderWebhookPayload) (sendEmail : Bool)
    (items : List LineItem) (s : LoopState) :
    runLoop env shop payload sendEmail items s
      = (items.flatMap (fun li => List.replicate li.quantity li)).foldl
          (fun s x => processUnit env shop payload sendEmail x s) s := by
  unfold runLoop
  exact foldl_nested_eq_flat
    (fun li s => processUnit env shop payload sendEmail li s) items s

lemma loop_spec (env : Env) (shop : String) (payload : OrderWebhookPayload)
    (sendEmail : Bool) :
    ∀ (us : List LineItem) (s : LoopState),
    us.foldl (fun s x => processUnit env shop payload sendEmail x s) s =
      { n := s.n + us.length
        calls := s.calls ++ us.map (unitCall payload sendEmail)
        created := s.created
          ++ (List.enumFrom s.n us).filterMap (unitCreated env)
        newRecords := s.newRecords
          ++ (List.enumFrom s.n us).filterMap (unitRecord env shop payload) }
    := by
  intro us
  induction us with
  | nil => intro s; simp
  | cons u us ih =>
      intro s
      rw [List.foldl_cons, ih]
      simp only [List.enumFrom_cons, List.filterMap_cons, List.map_cons,
        List.length_cons]
      cases hc : env.create s.n with
      | success gcId code masked =>
          simp only [processUnit, hc, unitCreated, unitRecord]
          by_cases hw : env.dbWriteOk s.n
          · simp [hw, hc, LoopState.mk.injEq]
            omega
          · simp [hw, hc, LoopState.mk.injEq]
            omega
      | thrown =>
          simp only [processUnit, hc, unitCreated, unitRecord]
          simp [hc, LoopState.mk.injEq]
          omega
      | userErrors =>
          simp only [processUnit, hc, unitCreated, unitRecord]
          simp [hc, LoopState.mk.injEq]
          omega
      | noData =>
          simp only [processUnit, hc, unitCreated, unitRecord]
          simp [hc, LoopState.mk.injEq]
          omega

lemma matched_nil_of_products_nil (db : Db) (shop : String)
    (payload : OrderWebhookPayload)
    (hp : db.giftCardProducts.filter (fun p => p.shop == shop) = []) :
    matchedLineItems db shop payload = [] := by
  unfold matchedLineItems shopVariantIds
  rw [hp]
  simp

/-- Full characterization of a non-duplicate invocation of
`processGiftCardOrder`: every observable is determined by the flattened
unit list and the environment. -/
lemma process_spec (env : Env) (db : Db) (shop : String)
    (payload : OrderWebhookPayload)
    (h : alreadyProcessed db shop payload.gid = false) :
    processGiftCardOrder env db shop payload =
      { calls := (unitList db shop payload).map
          (unitCall payload (sendEmailSetting db shop))
        created := (List.enumFrom 0 (unitList db shop payload)).filterMap
          (unitCreated env)
        db := { db with giftCardRecords :=
                          db.giftCardRecords ++
                            (List.enumFrom 0 (unitList db shop payload)).filterMap
                              (unitRecord env shop payload) }
        metafield :=
          if ((List.enumFrom 0 (unitList db shop payload)).filterMap
              (unitCreated env)).isEmpty then none
          else if env.metafieldOk then
            some ((((List.enumFrom 0 (unitList db shop payload)).filterMap
              (unitCreated env))).map toMetafieldEntry)
          else none } := by
  unfold processGiftCardOrder
  rw [h]
  simp only [Bool.false_eq_true, if_false]
  by_cases hp : db.giftCardProducts.filter (fun p => p.shop == shop) = []
  · have hm := matched_nil_of_products_nil db shop payload hp
    simp [hp, hm, skipResult, unitList]
  · have hp' : (db.giftCardProducts.filter (fun p => p.shop == shop)).isEmpty
        = false := by
      simpa [List.isEmpty_iff] using hp
    by_cases hm : matchedLineItems db shop payload = []
    · simp [hp', hm, skipResult, unitList]
    · have hm' : (matchedLineItems db shop payload).isEmpty = false := by
        simpa [List.isEmpty_iff] using hm
      simp only [hp', hm', Bool.false_eq_true, if_false]
      rw [runLoop_eq_flat, loop_spec]
      simp [unitList]

lemma process_skip (env : Env) (db : Db) (shop : String)
    (payload : OrderWebhookPayload)
    (h : alreadyProcessed db shop payload.gid = true) :
    processGiftCardOrder env db shop payload = skipResult db := by
  unfold processGiftCardOrder
  rw [h]
  simp

lemma unitRecord_shop_orderId (env : Env) (shop : String)
    (payload : OrderWebhookPayload) (p : Nat × LineItem)
    (row : GiftCardRecordRow)
    (hr : unitRecord env shop payload p = some row) :
    row.shop = shop ∧ row.orderId = payload.gid := by
  unfold unitRecord at hr
  split at hr
  · split at hr
    · obtain rfl : mkRecord shop payload p.2 _ _ = row := by
        injection hr
      exact ⟨rfl, rfl⟩
    · exact absurd hr (by simp)
  · exact absurd hr (by simp)

lemma process_new_records_match (env : Env) (db : Db) (shop : String)
    (payload : OrderWebhookPayload) :
    ∀ row ∈ (List.enumFrom 0 (unitList db shop payload)).filterMap
        (unitRecord env shop payload),
      row.shop = shop ∧ row.orderId = payload.gid := by
  intro row hrow
  obtain ⟨p, _, hpr⟩ := List.mem_filterMap.mp hrow
  exact unitRecord_shop_orderId env shop payload p row hpr

/-- Every invocation only appends issuance records, and every appended
record carries the invocation's shop and order id. -/
lemma process_db_eq (env : Env) (db : Db) (shop : String)
    (payload : OrderWebhookPayload) :
    ∃ new, (processGiftCardOrder env db shop payload).db
        = { db with giftCardRecords := db.giftCardRecords ++ new }
      ∧ ∀ row ∈ new, row.shop = shop ∧ row.orderId = payload.gid := by
  by_cases h : alreadyProcessed db shop payload.gid = true
  · refine ⟨[], ?_, by simp⟩
    rw [process_skip env db shop payload h]
    simp [skipResult]
  · have h' : alreadyProcessed db shop payload.gid = false := by
      simpa using h
    refine ⟨_, ?_, process_new_records_match env db shop payload⟩
    rw [process_spec env db shop payload h']

end DbVariant

namespace MetaVariant

lemma meta_runLoop_eq_flat (env : Env) (payload : OrderWebhookPayload)
    (items : List LineItem) (s : LoopState) :
    runLoop env payload items s
      = (items.flatMap (fun li => List.replicate li.quantity li)).foldl
          (fun s x => processUnit env payload x (unitValue env x) s) s := by
  unfold runLoop
  exact foldl_nested_eq_flat
    (fun li s => processUnit env payload li (unitValue env li) s) items s

lemma meta_loop_spec (env : Env) (payload : OrderWebhookPayload) :
    ∀ (us : List LineItem) (s : LoopState),
    us.foldl (fun s x => processUnit env payload x (unitValue env x) s) s =
      { n := s.n + us.length
        calls := s.calls
          ++ us.map (fun li => unitCall env payload li (unitValue env li))
        notes := s.notes
          ++ (List.enumFrom s.n us).filterMap (unitNoteWrite env payload)
        created := s.created
          ++ (List.enumFrom s.n us).filterMap (unitCreated env) } := by
  intro us
  induction us with
  | nil => intro s; simp
  | cons u us ih =>
      intro s
      rw [List.foldl_cons, ih]
      simp only [List.enumFrom_cons, List.filterMap_cons, List.map_cons,
        List.length_cons]
      cases hc : env.create s.n with
      | success gcId code masked =>
          simp only [processUnit, hc, unitCreated, unitNoteWrite]
          by_cases hw : env.noteUpdateOk s.n
          · simp [hw, hc, LoopState.mk.injEq]
            omega
          · simp [hw, hc, LoopState.mk.injEq]
            omega
      | thrown =>
          simp only [processUnit, hc, unitCreated, unitNoteWrite]
          simp [hc, LoopState.mk.injEq]
          omega
      | userErrors =>
          simp only [processUnit, hc, unitCreated, unitNoteWrite]
          simp [hc, LoopState.mk.injEq]
          omega
      | noData =>
          simp only [processUnit, hc, unitCreated, unitNoteWrite]
          simp [hc, LoopState.mk.injEq]
          omega

lemma meta_matched_nil_of_no_variants (env : Env)
    (payload : OrderWebhookPayload)
    (hp : (settingsOf env).variantIds = []) :
    matchedLineItems env payload = [] := by
  unfold matchedLineItems
  rw [hp]
  simp

/-- Full characterization of a non-duplicate invocation of the metafield
variant's `processGiftCardOrder`. -/
lemma meta_process_spec (env : Env) (payload : OrderWebhookPayload)
    (h : (jsTruthy env.orderMetafield).isSome = false) :
    processGiftCardOrder env payload =
      { calls := (unitList env payload).map
          (fun li => unitCall env payload li (unitValue env li))
        notes := (List.enumFrom 0 (unitList env payload)).filterMap
          (unitNoteWrite env payload)
        created := (List.enumFrom 0 (unitList env payload)).filterMap
          (unitCreated env)
        metafield :=
          if ((List.enumFrom 0 (unitList env payload)).filterMap
              (unitCreated env)).isEmpty then none
          else if env.orderUpdateOk then
            some (((List.enumFrom 0 (unitList env payload)).filterMap
              (unitCreated env)).map toMetafieldEntry)
          else none
        orderNote :=
          if ((List.enumFrom 0 (unitList env payload)).filterMap
              (unitCreated env)).isEmpty then none
          else if env.orderUpdateOk then
            some (orderNoteText env payload.note
              ((List.enumFrom 0 (unitList env payload)).filterMap
                (unitCreated env)))
          else none } := by
  unfold processGiftCardOrder
  rw [h]
  simp only [Bool.false_eq_true, if_false]
  by_cases hp : (settingsOf env).variantIds = []
  · have hm := meta_matched_nil_of_no_variants env payload hp
    simp [hp, hm, skipResult, unitList]
  · have hp' : (settingsOf env).variantIds.isEmpty = false := by
      simpa [List.isEmpty_iff] using hp
    by_cases hm : matchedLineItems env payload = []
    · simp [hp', hm, skipResult, unitList]
    · have hm' : (matchedLineItems env payload).isEmpty = false := by
        simpa [List.isEmpty_iff] using hm
      simp only [hp', hm', Bool.false_eq_true, if_false]
      rw [meta_runLoop_eq_flat, meta_loop_spec]
      simp [unitList]

lemma meta_process_skip (env : Env) (payload : OrderWebhookPayload)
    (h : (jsTruthy env.orderMetafield).isSome = true) :
    processGiftCardOrder env payload = skipResult := by
  unfold processGiftCardOrder
  rw [h]
  simp

lemma round2_nonneg (q : Money) (hq : 0 ≤ q) : 0 ≤ round2 q := by
  unfold round2
  have h1 : (0 : ℤ) ≤ ⌊q * 100 + 1 / 2⌋ := by
    refine Int.floor_nonneg.mpr ?_
    have : (0 : ℚ) ≤ q * 100 := by positivity
    linarith
  have h3 : (0 : ℚ) ≤ ((⌊q * 100 + 1 / 2⌋ : ℤ) : ℚ) := by
    exact_mod_cast h1
  positivity

lemma giftCardValue_nonneg (price overhead : Money) :
    0 ≤ giftCardValue price overhead :=
  round2_nonneg _ (le_max_left 0 _)

end MetaVariant

lemma mem_of_mem_enumFrom {α : Type} {x : Nat × α} {j : Nat} {xs : List α}
    (h : x ∈ List.enumFrom j xs) : x.2 ∈ xs := by
  induction xs generalizing j with
  | nil => simp at h
  | cons a l ih =>
      rw [List.enumFrom_cons] at h
      rcases List.mem_cons.mp h with h1 | h2
      · simp [h1]
      · exact List.mem_cons_of_mem _ (ih h2)

lemma enumFrom_self_mem {α : Type} (xs : List α) (n : Nat)
    (h : n < xs.length) :
    (n, xs[n]) ∈ List.enumFrom 0 xs := by
  have hlen : n < (List.enumFrom 0 xs).length := by
    simpa using h
  have hget := List.getElem_enumFrom xs 0 n hlen
  have hmem : (List.enumFrom 0 xs)[n] ∈ List.enumFrom 0 xs :=
    List.getElem_mem hlen
  rw [hget] at hmem
  simpa using hmem

/-- C3: for every order-paid webhook request that passes authentication,
the route action returns the success acknowledgment no matter what the
processing pipeline does — in particular for every possible outcome
(normal return or thrown error) of `processGiftCardOrder`, the error is
caught at the handler boundary and never propagated. -/
theorem claim_C3 (shop : String) (payload : OrderWebhookPayload)
    (process : String → OrderWebhookPayload → Except String Unit) :
    Webhook.action (.ok (shop, payload)) process = .ok .success := by
  unfold Webhook.action
  by_cases h : shop = ""
  · simp [h]
  · simp only [h, if_false]
    cases process shop payload <;> rfl

/-- C10: `authenticate.webhook` runs outside the try/catch of the route
action, so an error thrown during webhook authentication propagates out of
the action unchanged instead of being converted into a success response. -/
theorem claim_C10 (e : String)
    (process : String → OrderWebhookPayload → Except String Unit) :
    Webhook.action (.error e) process = .error e := rfl

/-- C2 counterexample: with variant 1 configured as a trigger, a matching
one-unit order, and an external creation call that fails with userErrors
(unchanged across deliveries), the first delivery persists no record, so
the second delivery does not find an existing record and does not return
before any creation call: it makes a creation call again. -/
theorem claim_C2_counterexample :
    (DbVariant.processGiftCardOrder Sample.userErrEnv
      (DbVariant.processGiftCardOrder Sample.userErrEnv Sample.db "shop1"
        (Sample.payload [Sample.item 1 1 10])).db "shop1"
      (Sample.payload [Sample.item 1 1 10])).calls ≠ [] := by decide

/-- C2 (amended): processing the same order-paid event twice in sequence,
with the shop configuration and all external responses unchanged, leaves
exactly the same set of issuance records as processing it once; and
whenever the first invocation persisted at least one record for the
(shop, orderId) pair, the second invocation finds it and short-circuits
with no creation calls and no writes. (As stated, the claim is false: when
the first invocation persisted nothing — e.g. every creation call failed —
the second invocation reprocesses the order rather than returning before
any creation call.) -/
theorem claim_C2 (env : DbVariant.Env) (db : DbVariant.Db) (shop : String)
    (payload : OrderWebhookPayload) :
    ((DbVariant.processGiftCardOrder env
        (DbVariant.processGiftCardOrder env db shop payload).db shop
        payload).db.giftCardRecords
      = (DbVariant.processGiftCardOrder env db shop payload).db.giftCardRecords)
    ∧ (DbVariant.alreadyProcessed
          (DbVariant.processGiftCardOrder env db shop payload).db shop
          payload.gid = true →
        DbVariant.processGiftCardOrder env
            (DbVariant.processGiftCardOrder env db shop payload).db shop
            payload
          = DbVariant.skipResult
              (DbVariant.processGiftCardOrder env db shop payload).db) := by
  refine ⟨?_, fun h2 => DbVariant.process_skip env _ shop payload h2⟩
  obtain ⟨new, hdb, hmatch⟩ := DbVariant.process_db_eq env db shop payload
  cases hnew : new with
  | nil =>
      have hid : (DbVariant.processGiftCardOrder env db shop payload).db = db := by
        rw [hdb, hnew]
        simp
      rw [hid, hdb, hnew]
      simp
  | cons row rest =>
      have hrow := hmatch row (by rw [hnew]; exact List.mem_cons_self row rest)
      have hpro : DbVariant.alreadyProcessed
          (DbVariant.processGiftCardOrder env db shop payload).db shop
          payload.gid = true := by
        rw [hdb]
        unfold DbVariant.alreadyProcessed
        rw [List.any_eq_true]
        refine ⟨row, ?_, ?_⟩
        · simp [hnew]
        · simp [hrow.1, hrow.2]
      rw [DbVariant.process_skip env _ shop payload hpro]
      rfl

/-- C2 witness: when the first delivery succeeds and persists a record,
the second delivery short-circuits. -/
theorem claim_C2_witness :
    DbVariant.processGiftCardOrder Sample.okEnv
        (DbVariant.processGiftCardOrder Sample.okEnv Sample.db "shop1"
          (Sample.payload [Sample.item 1 1 10])).db "shop1"
        (Sample.payload [Sample.item 1 1 10])
      = DbVariant.skipResult
          (DbVariant.processGiftCardOrder Sample.okEnv Sample.db "shop1"
            (Sample.payload [Sample.item 1 1 10])).db :=
  (claim_C2 Sample.okEnv Sample.db "shop1"
    (Sample.payload [Sample.item 1 1 10])).2 (by decide)

/-- C4: for an order that is not a duplicate delivery, the creation calls
are exactly one per purchased unit of each line item whose variant is in
the shop's trigger set, in line-item order then quantity order, so their
total number is the sum of the matched line items' quantities (a
zero-quantity matched item contributes none, an unmatched item none). -/
theorem claim_C4 (env : DbVariant.Env) (db : DbVariant.Db) (shop : String)
    (payload : OrderWebhookPayload)
    (h : DbVariant.alreadyProcessed db shop payload.gid = false) :
    (DbVariant.processGiftCardOrder env db shop payload).calls
        = (DbVariant.matchedLineItems db shop payload).flatMap
            (fun li => List.replicate li.quantity
              (DbVariant.unitCall payload
                (DbVariant.sendEmailSetting db shop) li))
      ∧ (DbVariant.processGiftCardOrder env db shop payload).calls.length
          = ((DbVariant.matchedLineItems db shop payload).map
              (fun li => li.quantity)).sum := by
  have hs := DbVariant.process_spec env db shop payload h
  constructor
  · rw [hs]
    show (DbVariant.unitList db shop payload).map
      (DbVariant.unitCall payload (DbVariant.sendEmailSetting db shop)) = _
    unfold DbVariant.unitList
    rw [List.map_flatMap]
    simp
  · rw [hs]
    show ((DbVariant.unitList db shop payload).map
      (DbVariant.unitCall payload (DbVariant.sendEmailSetting db shop))).length = _
    rw [List.length_map]
    unfold DbVariant.unitList
    rw [List.length_flatMap]
    simp only [Function.comp_def, List.length_replicate]

/-- C4 witness: line items [(variant 1, qty 2), (variant 2, qty 1)] with
trigger set containing only variant 1 yield exactly 2 creation calls. -/
theorem claim_C4_witness :
    DbVariant.alreadyProcessed Sample.db "shop1"
        (Sample.payload [Sample.item 1 2 25, Sample.item 2 1 25]).gid = false
      ∧ (DbVariant.processGiftCardOrder Sample.okEnv Sample.db "shop1"
          (Sample.payload [Sample.item 1 2 25, Sample.item 2 1 25])).calls.length
        = 2 := by
  refine ⟨by decide, ?_⟩
  rw [(claim_C4 Sample.okEnv Sample.db "shop1"
    (Sample.payload [Sample.item 1 2 25, Sample.item 2 1 25]) (by decide)).2]
  decide

/-- C5: per-unit failure isolation — for a non-duplicate delivery, one
creation call is made per unit no matter how individual calls fail (no
abort, no retry), the pushed cards are exactly the successful units in
order, and the database records are exactly the units whose creation and
write both succeeded, so units before and after a failed one are
unaffected. -/
theorem claim_C5 (env : DbVariant.Env) (db : DbVariant.Db) (shop : String)
    (payload : OrderWebhookPayload)
    (h : DbVariant.alreadyProcessed db shop payload.gid = false) :
    (DbVariant.processGiftCardOrder env db shop payload).calls.length
        = (DbVariant.unitList db shop payload).length
      ∧ (DbVariant.processGiftCardOrder env db shop payload).created
          = (List.enumFrom 0 (DbVariant.unitList db shop payload)).filterMap
              (DbVariant.unitCreated env)
      ∧ (DbVariant.processGiftCardOrder env db shop payload).db.giftCardRecords
          = db.giftCardRecords
            ++ (List.enumFrom 0 (DbVariant.unitList db shop payload)).filterMap
                (DbVariant.unitRecord env shop payload) := by
  have hs := DbVariant.process_spec env db shop payload h
  refine ⟨?_, by rw [hs], by rw [hs]⟩
  rw [hs]
  exact List.length_map _ _

/-- C5 witness: of 3 units whose 2nd creation call throws, 3 calls are
made and cards exist exactly for units 1 and 3. -/
theorem claim_C5_witness :
    DbVariant.alreadyProcessed Sample.db "shop1"
        (Sample.payload [Sample.item 1 3 10]).gid = false
      ∧ (DbVariant.processGiftCardOrder Sample.failSecondEnv Sample.db "shop1"
          (Sample.payload [Sample.item 1 3 10])).calls.length = 3
      ∧ (DbVariant.processGiftCardOrder Sample.failSecondEnv Sample.db "shop1"
          (Sample.payload [Sample.item 1 3 10])).created.length = 2 := by
  refine ⟨by decide, ?_, ?_⟩
  · rw [(claim_C5 Sample.failSecondEnv Sample.db "shop1"
      (Sample.payload [Sample.item 1 3 10]) (by decide)).1]
    decide
  · rw [(claim_C5 Sample.failSecondEnv Sample.db "shop1"
      (Sample.payload [Sample.item 1 3 10]) (by decide)).2.1]
    decide

/-- C7: a failed metafield write after the creation loop is caught inside
`processGiftCardOrder` (the run still produces a result, with no metafield
written) and rolls nothing back: the created cards, the database records
and the creation calls are identical to those of a run whose metafield
write succeeds. -/
theorem claim_C7 (env : DbVariant.Env) (db : DbVariant.Db) (shop : String)
    (payload : OrderWebhookPayload) :
    ((DbVariant.processGiftCardOrder { env with metafieldOk := false }
        db shop payload).metafield = none)
      ∧ (DbVariant.processGiftCardOrder { env with metafieldOk := false }
            db shop payload).created
          = (DbVariant.processGiftCardOrder { env with metafieldOk := true }
              db shop payload).created
      ∧ (DbVariant.processGiftCardOrder { env with metafieldOk := false }
            db shop payload).db
          = (DbVariant.processGiftCardOrder { env with metafieldOk := true }
              db shop payload).db
      ∧ (DbVariant.processGiftCardOrder { env with metafieldOk := false }
            db shop payload).calls
          = (DbVariant.processGiftCardOrder { env with metafieldOk := true }
              db shop payload).calls := by
  by_cases h : DbVariant.alreadyProcessed db shop payload.gid = true
  · rw [DbVariant.process_skip { env with metafieldOk := false }
        db shop payload h,
      DbVariant.process_skip { env with metafieldOk := true }
        db shop payload h]
    exact ⟨rfl, rfl, rfl, rfl⟩
  · have h' : DbVariant.alreadyProcessed db shop payload.gid = false := by
      simpa using h
    rw [DbVariant.process_spec { env with metafieldOk := false }
        db shop payload h',
      DbVariant.process_spec { env with metafieldOk := true }
        db shop payload h']
    refine ⟨?_, rfl, rfl, rfl⟩
    split
    · rfl
    · simp

/-- C8: in every creation call of a non-duplicate delivery, a customer
association is attached if and only if `sendEmailNotification` is true and
a customer is present on the order (customer gids being non-empty
strings); in particular a guest order attaches no association to any call,
while the creation outcomes themselves are untouched. -/
theorem claim_C8 (env : DbVariant.Env) (db : DbVariant.Db) (shop : String)
    (payload : OrderWebhookPayload)
    (h : DbVariant.alreadyProcessed db shop payload.gid = false)
    (hg : ∀ c : Customer, payload.customer = some c → c.gid ≠ "") :
    (∀ call ∈ (DbVariant.processGiftCardOrder env db shop payload).calls,
        (call.customerId.isSome = true
          ↔ (DbVariant.sendEmailSetting db shop = true
              ∧ payload.customer.isSome = true)))
      ∧ (payload.customer = none →
          ∀ call ∈ (DbVariant.processGiftCardOrder env db shop payload).calls,
            call.customerId = none)
      ∧ (DbVariant.processGiftCardOrder env db shop payload).created
          = (List.enumFrom 0 (DbVariant.unitList db shop payload)).filterMap
              (DbVariant.unitCreated env) := by
  have hs := DbVariant.process_spec env db shop payload h
  have hcall : ∀ call ∈ (DbVariant.processGiftCardOrder env db shop
      payload).calls,
      call.customerId = attachedCustomerId (DbVariant.sendEmailSetting db shop)
        (payload.customer.map (·.gid)) := by
    rw [hs]
    intro call hcal
    obtain ⟨li, _, rfl⟩ := List.mem_map.mp hcal
    rfl
  refine ⟨?_, ?_, by rw [hs]⟩
  · intro call hcal
    rw [hcall call hcal]
    unfold attachedCustomerId jsTruthy
    cases hcust : payload.customer with
    | none => cases hb : DbVariant.sendEmailSetting db shop <;> simp [hb]
    | some c =>
        have hgid := hg c hcust
        cases hb : DbVariant.sendEmailSetting db shop <;> simp [hb, hgid]
  · intro hc call hcal
    rw [hcall call hcal]
    unfold attachedCustomerId jsTruthy
    simp [hc]

/-- C8 witness: a guest order with email notification enabled (the
default) still gets its creation call, with no customer association. -/
theorem claim_C8_witness :
    (DbVariant.processGiftCardOrder Sample.okEnv Sample.db "shop1"
        (Sample.payload [Sample.item 1 1 10])).calls.length = 1
      ∧ ∀ call ∈ (DbVariant.processGiftCardOrder Sample.okEnv Sample.db
          "shop1" (Sample.payload [Sample.item 1 1 10])).calls,
          call.customerId = none := by
  have h := claim_C8 Sample.okEnv Sample.db "shop1"
    (Sample.payload [Sample.item 1 1 10]) (by decide)
    (fun c hc => by simp [Sample.payload] at hc)
  exact ⟨by decide, h.2.1 rfl⟩

/-- C9: in the database-persistence variant, a successfully created gift
card whose database write throws still appears among the pushed cards and
in the metafield written at the end (the card was appended before the
write and the per-unit catch swallowed the error), while the database
records consist only of units whose write succeeded — the failed unit
contributes no record. -/
theorem claim_C9 (env : DbVariant.Env) (db : DbVariant.Db) (shop : String)
    (payload : OrderWebhookPayload) (n : Nat) (gcId code masked : String)
    (h : DbVariant.alreadyProcessed db shop payload.gid = false)
    (hn : env.create n = CreateOutcome.success gcId code masked)
    (hw : env.dbWriteOk n = false)
    (hm : env.metafieldOk = true)
    (hlt : n < (DbVariant.unitList db shop payload).length) :
    ∃ c ∈ (DbVariant.processGiftCardOrder env db shop payload).created,
      c.giftCardId = gcId ∧ c.code = code
        ∧ (∃ entries,
            (DbVariant.processGiftCardOrder env db shop payload).metafield
                = some entries
              ∧ DbVariant.toMetafieldEntry c ∈ entries)
        ∧ (DbVariant.processGiftCardOrder env db shop
              payload).db.giftCardRecords
            = db.giftCardRecords
              ++ (List.enumFrom 0
                    (DbVariant.unitList db shop payload)).filterMap
                  (DbVariant.unitRecord env shop payload)
        ∧ (∀ p ∈ List.enumFrom 0 (DbVariant.unitList db shop payload),
            p.1 = n → DbVariant.unitRecord env shop payload p = none) := by
  have hs := DbVariant.process_spec env db shop payload h
  have hmem : (n, (DbVariant.unitList db shop payload)[n]) ∈
      List.enumFrom 0 (DbVariant.unitList db shop payload) :=
    enumFrom_self_mem _ n hlt
  have hcard : DbVariant.unitCreated env
      (n, (DbVariant.unitList db shop payload)[n])
      = some (DbVariant.mkCard ((DbVariant.unitList db shop payload)[n])
          gcId code masked) := by
    simp [DbVariant.unitCreated, hn]
  have hfmem : DbVariant.mkCard ((DbVariant.unitList db shop payload)[n])
      gcId code masked
      ∈ (List.enumFrom 0 (DbVariant.unitList db shop payload)).filterMap
          (DbVariant.unitCreated env) :=
    List.mem_filterMap.mpr ⟨_, hmem, hcard⟩
  have hcmem : DbVariant.mkCard ((DbVariant.unitList db shop payload)[n])
      gcId code masked
      ∈ (DbVariant.processGiftCardOrder env db shop payload).created := by
    rw [hs]
    exact hfmem
  have hne : ((List.enumFrom 0 (DbVariant.unitList db shop payload)).filterMap
      (DbVariant.unitCreated env)).isEmpty = false := by
    rcases hb : ((List.enumFrom 0
        (DbVariant.unitList db shop payload)).filterMap
        (DbVariant.unitCreated env)).isEmpty with _ | _
    · rfl
    · exact absurd (List.isEmpty_iff.mp hb) (List.ne_nil_of_mem hfmem)
  refine ⟨_, hcmem, rfl, rfl, ?_, ?_, ?_⟩
  · refine ⟨((List.enumFrom 0 (DbVariant.unitList db shop payload)).filterMap
      (DbVariant.unitCreated env)).map DbVariant.toMetafieldEntry, ?_, ?_⟩
    · rw [hs]
      show (if ((List.enumFrom 0
          (DbVariant.unitList db shop payload)).filterMap
          (DbVariant.unitCreated env)).isEmpty then none
        else if env.metafieldOk then
          some (((List.enumFrom 0
            (DbVariant.unitList db shop payload)).filterMap
            (DbVariant.unitCreated env)).map DbVariant.toMetafieldEntry)
        else none) = _
      rw [hne, hm]
      simp
    · exact List.mem_map_of_mem _ hfmem
  · rw [hs]
  · intro p hp hpn
    obtain ⟨i, li⟩ := p
    simp only at hpn
    subst hpn
    simp [DbVariant.unitRecord, hn, hw]

/-- C9 witness: a one-unit order whose creation succeeds but whose
database write throws still shows the card in the metafield while no
record is persisted. -/
theorem claim_C9_witness :
    ∃ c ∈ (DbVariant.processGiftCardOrder Sample.dbFailEnv Sample.db "shop1"
        (Sample.payload [Sample.item 1 1 10])).created,
      c.giftCardId = "0" ∧ c.code = "code0"
        ∧ (∃ entries,
            (DbVariant.processGiftCardOrder Sample.dbFailEnv Sample.db "shop1"
                (Sample.payload [Sample.item 1 1 10])).metafield
                = some entries
              ∧ DbVariant.toMetafieldEntry c ∈ entries)
        ∧ (DbVariant.processGiftCardOrder Sample.dbFailEnv Sample.db "shop1"
              (Sample.payload [Sample.item 1 1 10])).db.giftCardRecords
            = Sample.db.giftCardRecords
              ++ (List.enumFrom 0 (DbVariant.unitList Sample.db "shop1"
                    (Sample.payload [Sample.item 1 1 10]))).filterMap
                  (DbVariant.unitRecord Sample.dbFailEnv "shop1"
                    (Sample.payload [Sample.item 1 1 10]))
        ∧ (∀ p ∈ List.enumFrom 0 (DbVariant.unitList Sample.db "shop1"
              (Sample.payload [Sample.item 1 1 10])),
            p.1 = 0 → DbVariant.unitRecord Sample.dbFailEnv "shop1"
              (Sample.payload [Sample.item 1 1 10]) p = none) :=
  claim_C9 Sample.dbFailEnv Sample.db "shop1"
    (Sample.payload [Sample.item 1 1 10]) 0 "0" "code0" "mask0"
    (by decide) rfl rfl rfl (by decide)

/-- C1: every gift card created by the metafield-variant pipeline belongs
to a matched line item and carries the value
`max(0, unitPrice - printedOverhead)` rounded to 2 decimal places (the
configured overhead, defaulting to 0 when settings are absent), never
negative; in particular unit price 25.00 with overhead 3.00 gives 22.00
and unit price 2.00 with overhead 5.00 gives 0.00. -/
theorem claim_C1 :
    (∀ (env : MetaVariant.Env) (payload : OrderWebhookPayload),
        ∀ c ∈ (MetaVariant.processGiftCardOrder env payload).created,
          ∃ li ∈ MetaVariant.matchedLineItems env payload,
            c.lineItemId = li.gid
              ∧ c.value = MetaVariant.giftCardValue li.price
                  (MetaVariant.settingsOf env).printedOverhead
              ∧ 0 ≤ c.value)
      ∧ MetaVariant.giftCardValue 25 3 = 22
      ∧ MetaVariant.giftCardValue 2 5 = 0 := by
  refine ⟨?_, ?_, ?_⟩
  · intro env payload c hc
    rcases hb : (jsTruthy env.orderMetafield).isSome with _ | _
    case true =>
      rw [MetaVariant.meta_process_skip env payload hb] at hc
      simp [MetaVariant.skipResult] at hc
    case false =>
      rw [MetaVariant.meta_process_spec env payload hb] at hc
      obtain ⟨p, hp, hpc⟩ := List.mem_filterMap.mp hc
      obtain ⟨i, li⟩ := p
      have hli : li ∈ MetaVariant.unitList env payload :=
        mem_of_mem_enumFrom hp
      have hli2 : li ∈ MetaVariant.matchedLineItems env payload := by
        unfold MetaVariant.unitList at hli
        obtain ⟨a, ha, hr⟩ := List.mem_flatMap.mp hli
        rwa [List.eq_of_mem_replicate hr]
      cases hcr : env.create i with
      | success gcId code masked =>
          simp only [MetaVariant.unitCreated, hcr] at hpc
          by_cases hnu : env.noteUpdateOk i
          · rw [if_pos hnu] at hpc
            obtain rfl := Option.some.inj hpc
            exact ⟨li, hli2, rfl, rfl,
              MetaVariant.giftCardValue_nonneg li.price _⟩
          · rw [if_neg hnu] at hpc
            exact absurd hpc (by simp)
      | thrown =>
          simp only [MetaVariant.unitCreated, hcr] at hpc
          exact absurd hpc (by simp)
      | userErrors =>
          simp only [MetaVariant.unitCreated, hcr] at hpc
          exact absurd hpc (by simp)
      | noData =>
          simp only [MetaVariant.unitCreated, hcr] at hpc
          exact absurd hpc (by simp)
  · norm_num [MetaVariant.giftCardValue, MetaVariant.round2]
  · norm_num [MetaVariant.giftCardValue, MetaVariant.round2]

/-- C1 witness: with overhead 3, the card created for a 25.00 unit matches
a line item of the order and carries the overhead-reduced value. -/
theorem claim_C1_witness :
    ∃ li ∈ MetaVariant.matchedLineItems Sample.metaEnv
        (Sample.payload [Sample.item 1 1 25]),
      Sample.metaCard.lineItemId = li.gid
        ∧ Sample.metaCard.value = MetaVariant.giftCardValue li.price
            (MetaVariant.settingsOf Sample.metaEnv).printedOverhead
        ∧ 0 ≤ Sample.metaCard.value := by
  refine claim_C1.1 Sample.metaEnv (Sample.payload [Sample.item 1 1 25])
    Sample.metaCard ?_
  rw [MetaVariant.meta_process_spec Sample.metaEnv
    (Sample.payload [Sample.item 1 1 25]) rfl]
  exact List.mem_filterMap.mpr ⟨(0, Sample.item 1 1 25), by decide, rfl⟩

/-- C6: the full code returned by a successful creation is captured
unchanged into the pushed result record; the metafield entries are exactly
the pushed records, whose entry code is the record's raw code; and the
4-character-grouped, upper-cased formatting appears only in the note text
written back onto the gift card for display. -/
theorem claim_C6 (env : MetaVariant.Env) (payload : OrderWebhookPayload) :
    (∀ c ∈ (MetaVariant.processGiftCardOrder env payload).created,
        ∃ n, env.create n
            = CreateOutcome.success c.giftCardId c.code c.maskedCode)
      ∧ (∀ entries,
          (MetaVariant.processGiftCardOrder env payload).metafield
              = some entries →
            entries = (MetaVariant.processGiftCardOrder env
              payload).created.map MetaVariant.toMetafieldEntry)
      ∧ (∀ gc : MetaVariant.CreatedGiftCard,
          (MetaVariant.toMetafieldEntry gc).code = gc.code)
      ∧ (∀ p ∈ (MetaVariant.processGiftCardOrder env payload).notes,
          ∃ n li code masked,
            env.create n = CreateOutcome.success p.1 code masked
              ∧ p.2 = MetaVariant.fullNoteStr env payload li
                  (MetaVariant.unitValue env li) code) := by
  rcases hb : (jsTruthy env.orderMetafield).isSome with _ | _
  case true =>
    rw [MetaVariant.meta_process_skip env payload hb]
    refine ⟨?_, ?_, fun gc => rfl, ?_⟩
    · intro c hc
      simp [MetaVariant.skipResult] at hc
    · intro entries he
      simp [MetaVariant.skipResult] at he
    · intro p hp
      simp [MetaVariant.skipResult] at hp
  case false =>
    rw [MetaVariant.meta_process_spec env payload hb]
    refine ⟨?_, ?_, fun gc => rfl, ?_⟩
    · intro c hc
      obtain ⟨p, hp, hpc⟩ := List.mem_filterMap.mp hc
      obtain ⟨i, li⟩ := p
      cases hcr : env.create i with
      | success gcId code masked =>
          simp only [MetaVariant.unitCreated, hcr] at hpc
          by_cases hnu : env.noteUpdateOk i
          · rw [if_pos hnu] at hpc
            obtain rfl := Option.some.inj hpc
            exact ⟨i, hcr⟩
          · rw [if_neg hnu] at hpc
            exact absurd hpc (by simp)
      | thrown =>
          simp only [MetaVariant.unitCreated, hcr] at hpc
          exact absurd hpc (by simp)
      | userErrors =>
          simp only [MetaVariant.unitCreated, hcr] at hpc
          exact absurd hpc (by simp)
      | noData =>
          simp only [MetaVariant.unitCreated, hcr] at hpc
          exact absurd hpc (by simp)
    · intro entries he
      split at he
      · exact absurd he (by simp)
      · split at he
        · exact (Option.some.inj he).symm
        · exact absurd he (by simp)
    · intro p hp
      obtain ⟨q, hq, hqp⟩ := List.mem_filterMap.mp hp
      obtain ⟨i, li⟩ := q
      cases hcr : env.create i with
      | success gcId code masked =>
          simp only [MetaVariant.unitNoteWrite, hcr] at hqp
          by_cases hnu : env.noteUpdateOk i
          · rw [if_pos hnu] at hqp
            obtain rfl := Option.some.inj hqp
            exact ⟨i, li, code, masked, hcr, rfl⟩
          · rw [if_neg hnu] at hqp
            exact absurd hqp (by simp)
      | thrown =>
          simp only [MetaVariant.unitNoteWrite, hcr] at hqp
          exact absurd hqp (by simp)
      | userErrors =>
          simp only [MetaVariant.unitNoteWrite, hcr] at hqp
          exact absurd hqp (by simp)
      | noData =>
          simp only [MetaVariant.unitNoteWrite, hcr] at hqp
          exact absurd hqp (by simp)

/-- C6 witness: the sample run's stored card code is exactly a code the
issuer returned. -/
theorem claim_C6_witness :
    ∃ n, Sample.metaEnv.create n
      = CreateOutcome.success "0" "code0" "mask0" := by
  have hm : Sample.metaCard ∈ (MetaVariant.processGiftCardOrder
      Sample.metaEnv (Sample.payload [Sample.item 1 1 25])).created := by
    rw [MetaVariant.meta_process_spec Sample.metaEnv
      (Sample.payload [Sample.item 1 1 25]) rfl]
    exact List.mem_filterMap.mpr ⟨(0, Sample.item 1 1 25), by decide, rfl⟩
  exact (claim_C6 Sample.metaEnv
    (Sample.payload [Sample.item 1 1 25])).1 Sample.metaCard hm

end GiftCardApp
